import Mathlib

/-!
Verification development for the centrifuge-fsm demonstration program
(`src/main.go`).  The program wires a centrifuge broker node, an HTTP
front door with an anonymous-identity auth middleware, and four
centrifuge-go clients.  We shallowly embed the orchestration logic of
`main.go`: the fixed endpoint constants, the auth middleware, the
server-side event hooks, the client-side OnConnected handler, the
startup barrier built on a sync.WaitGroup, the fatal-error tiers of
`main`, and the final signal wait.
-/

namespace CentrifugeFsm

/-! ### Fixed endpoint constants (main.go lines 74, 81, 119, 134) -/

/-- Address string passed to `http.ListenAndServe` (main.go line 81). -/
def listenAddr : String := ":8000"

/-- Route registered for the websocket upgrade handler (main.go line 74). -/
def websocketRoute : String := "/connection/websocket"

/-- Websocket URL every client dials (main.go line 119). -/
def wsURL : String := "ws://localhost:8000/connection/websocket"

/-- Channel name passed to `NewSubscription` (main.go line 134). -/
def subscriptionChannel : String := "com.jtbonhomme.server"

/-! ### Client construction (main.go `newClient`, lines 118-179, and the
loop at lines 86-96).  `newClient` builds a JSON client dialing `wsURL`
with a fixed name and version; its OnConnected handler subscribes to
`subscriptionChannel`. -/

structure GoClient where
  url : String
  name : String
  version : String
  subChannel : String
deriving DecidableEq, Repr

/-- Embedding of `newClient` (main.go lines 118-179): the statically
determined configuration of the constructed client. -/
def newClient : GoClient :=
  { url := wsURL
    name := "listening-go-client"
    version := "0.0.1"
    subChannel := subscriptionChannel }

/-- The four clients constructed by the loop at main.go lines 86-96:
`clients[i] = newClient(&log)` for `i = 0..3`. -/
def mainClients : List GoClient := (List.range 4).map (fun _ => newClient)

/-! ### Auth middleware (main.go `auth`, lines 181-196). -/

structure Credentials where
  userID : String
deriving DecidableEq, Repr

/-- Request context: an optional credentials entry plus the rest of the
context, kept abstract as an opaque-to-us payload. -/
structure Context where
  credentials : Option Credentials
  base : Nat
deriving DecidableEq, Repr

/-- Embedding of `centrifuge.SetCredentials`: returns a child context
carrying the given credentials. -/
def SetCredentials (ctx : Context) (cred : Credentials) : Context :=
  { ctx with credentials := some cred }

structure Request where
  context : Context
  method : String
  url : String
  headers : List (String × String)
  body : List Nat
deriving DecidableEq, Repr

/-- Embedding of `r.WithContext(ctx)`. -/
def Request.withContext (r : Request) (ctx : Context) : Request :=
  { r with context := ctx }

/-- One invocation of the wrapped handler: `h.ServeHTTP(w, r)`. -/
structure HandlerCall (W : Type) where
  writer : W
  request : Request

/-- Embedding of the closure body of `auth` (main.go lines 182-195):
the list of calls it makes to the wrapped handler, in order, with the
arguments passed.  The body reads the request context, builds anonymous
credentials, installs them, and delegates exactly once. -/
def authBody (W : Type) (w : W) (r : Request) : List (HandlerCall W) :=
  let ctx := r.context
  let cred : Credentials := { userID := "" }
  let newCtx := SetCredentials ctx cred
  let r2 := r.withContext newCtx
  [{ writer := w, request := r2 }]

/-! ### Server-side event hooks (main.go lines 39-62, 114-116).
Each hook body is embedded as the ordered list of observable actions it
performs: log writes, WaitGroup operations, hook registrations and
callback invocations. -/

structure SubscribeReply
deriving DecidableEq, Repr

structure PublishReply
deriving DecidableEq, Repr

inductive Action where
  | logMsg (s : String)
  | wgAdd (n : Nat)
  | wgDone
  | connectClient (i : Nat)
  | registerHook (h : String)
  | callSubscribeCb (reply : SubscribeReply) (err : Option String)
  | callPublishCb (reply : PublishReply) (err : Option String)
  | callRPCCb (data : String) (err : Option String)
deriving DecidableEq, Repr

structure SubscribeEvent where
  channel : String
deriving DecidableEq, Repr

structure PublishEvent where
  channel : String
  data : String
deriving DecidableEq, Repr

structure RPCEvent where
  method : String
  data : String
deriving DecidableEq, Repr

/-- Body of the `OnSubscribe` hook (main.go lines 46-49): log the
channel, then `cb(centrifuge.SubscribeReply{}, nil)`. -/
def onSubscribeActions (cid info : String) (e : SubscribeEvent) : List Action :=
  [ Action.logMsg ("client " ++ cid ++ " (" ++ info ++ ") subscribes on channel " ++ e.channel)
  , Action.callSubscribeCb {} none ]

/-- Body of the `OnPublish` hook (main.go lines 51-54): log channel and
payload, then `cb(centrifuge.PublishReply{}, nil)`. -/
def onPublishActions (cid info : String) (e : PublishEvent) : List Action :=
  [ Action.logMsg ("client " ++ cid ++ " (" ++ info ++ ") publishes into channel " ++ e.channel ++ ": " ++ e.data)
  , Action.callPublishCb {} none ]

/-- Body of the `OnDisconnect` hook (main.go lines 56-58). -/
def onDisconnectActions (cid info : String) : List Action :=
  [ Action.logMsg ("client " ++ cid ++ " (" ++ info ++ ") disconnected") ]

/-- Body of `handleRPC` (main.go lines 114-116): one log write and
nothing else; the callback `c` is never invoked. -/
def handleRPCActions (e : RPCEvent) : List Action :=
  [ Action.logMsg ("client RPC: " ++ e.method ++ " " ++ e.data) ]

/-- Body of the server-side `node.OnConnect` callback (main.go lines
39-62): log the connection, register the four per-client hooks, then
`wg.Done()`. -/
def serverOnConnectActions (cid info transportName transportProto : String) : List Action :=
  [ Action.logMsg ("client " ++ cid ++ " (" ++ info ++ ") connected via " ++ transportName ++ " (" ++ transportProto ++ ")")
  , Action.registerHook "OnSubscribe"
  , Action.registerHook "OnPublish"
  , Action.registerHook "OnDisconnect"
  , Action.registerHook "OnRPC"
  , Action.wgDone ]

/-! ### Startup barrier (main.go lines 86-102).  The client loop runs
`wg.Add(1)` immediately before each `clients[i].Connect()`; the only
`wg.Done()` in the program is the one in the `OnConnect` callback
above; `wg.Wait()` then blocks until the counter is zero. -/

/-- Action trace of the client startup loop (main.go lines 88-96),
keeping the WaitGroup operations and connect attempts in program
order. -/
def clientStartupLoop : List Action :=
  ((List.range 4).map (fun i =>
    [ Action.logMsg ("create player " ++ toString i)
    , Action.wgAdd 1
    , Action.connectClient i ])).flatten

def isWgDone : Action → Bool
  | Action.wgDone => true
  | _ => false

def isCallRPCCb : Action → Bool
  | Action.callRPCCb _ _ => true
  | _ => false

/-- Amount an action adds to the WaitGroup counter. -/
def addAmount : Action → Nat
  | Action.wgAdd n => n
  | _ => 0

/-- Total `wg.Add` amount contributed by the startup loop. -/
def totalAdds : Nat := (clientStartupLoop.map addAmount).sum

/-- Total `wg.Add` amount occurring strictly before the connect attempt
of client `i` in the startup loop. -/
def addsBeforeConnect (i : Nat) : Nat :=
  ((clientStartupLoop.takeWhile (fun a => a != Action.connectClient i)).map addAmount).sum

/-- WaitGroup counter after the whole startup loop has run and `d`
server-side `OnConnect` callbacks have executed their `wg.Done()`. -/
def wgCounterAfter (d : Nat) : Int := (totalAdds : Int) - (d : Int)

/-- Semantics of `wg.Wait()` (main.go line 100): it unblocks exactly
when the counter is zero. -/
def waitUnblocked (d : Nat) : Prop := wgCounterAfter d = 0

/-! ### Fatal-error tiers of `main` (main.go lines 32-96).  The
startup sequence is embedded as a function of an environment recording
the outcome of each fallible external call; `none` means success. -/

structure StartupEnv where
  newNodeErr : Option String
  runErr : Option String
  listenErr : Option String
  connectErr : Fin 4 → Option String

inductive StartupOutcome where
  | panicked (msg : String)
  | proceeding
deriving DecidableEq, Repr

/-- Client connect loop of `main` (lines 88-96): on the first failing
`Connect()` the program aborts through `log.Panic()`, otherwise it
falls through. -/
def connectClients (env : StartupEnv) (i : Nat) : StartupOutcome :=
  if h : i < 4 then
    match env.connectErr ⟨i, h⟩ with
    | some e => StartupOutcome.panicked ("connect client " ++ toString i ++ " error: " ++ e)
    | none => connectClients env (i + 1)
  else StartupOutcome.proceeding
termination_by 4 - i

/-- Control flow of `main` up to the startup barrier (main.go lines
32-96): node construction failure, `node.Run()` failure and
`http.ListenAndServe` failure each panic; then the client connect loop
runs. -/
def mainStartup (env : StartupEnv) : StartupOutcome :=
  match env.newNodeErr with
  | some e => StartupOutcome.panicked ("error instantiating new centrifuge node: " ++ e)
  | none =>
    match env.runErr with
    | some e => StartupOutcome.panicked ("error running centrifuge node: " ++ e)
    | none =>
      match env.listenErr with
      | some e => StartupOutcome.panicked ("error listening on :8000: " ++ e)
      | none => connectClients env 0

/-! ### Client-side `OnConnected` handler (main.go lines 130-163).
In centrifuge-go v0.10.1, `Client.NewSubscription` returns a nil
`*Subscription` together with an error (for example
`ErrDuplicateSubscription`); the handler checks the error, logs it, and
then calls `subServer.OnJoin(...)` on the handle regardless, which in
Go is a nil-pointer dereference whenever creation failed. -/

inductive SubHandle where
  | nilHandle
  | handle (channel : String)
deriving DecidableEq, Repr

/-- Go runtime panic message for a nil-pointer method call. -/
def nilDerefMsg : String := "runtime error: invalid memory address or nil pointer dereference"

inductive ClientOutcome where
  | crashed (msg : String)
  | running (subscribed : Bool)
deriving DecidableEq, Repr

/-- Result of `c.NewSubscription("com.jtbonhomme.server")` given the
error outcome of the call: on failure the returned handle is nil. -/
def newSubscriptionResult (createErr : Option String) : SubHandle :=
  match createErr with
  | some _ => SubHandle.nilHandle
  | none => SubHandle.handle subscriptionChannel

/-- Embedding of the `OnConnected` handler body (main.go lines
130-163), parameterised by the outcomes of the two fallible calls.
After the creation-error check (which only logs) the handler registers
five hooks on `subServer` and calls `subServer.Subscribe()`; a
`Subscribe` error is logged and the handler returns with the client
unsubscribed. -/
def onConnectedOutcome (createErr subscribeErr : Option String) : ClientOutcome :=
  match newSubscriptionResult createErr with
  | SubHandle.nilHandle => ClientOutcome.crashed nilDerefMsg
  | SubHandle.handle _ =>
    match subscribeErr with
    | some _ => ClientOutcome.running false
    | none => ClientOutcome.running true

/-! ### Final signal wait (main.go lines 104-111). -/

inductive Sig where
  | sigint
  | sigterm
  | other (n : Nat)
deriving DecidableEq, Repr

/-- Signals registered with `signal.Notify` (main.go line 106):
`os.Interrupt` (SIGINT) and `syscall.SIGTERM`. -/
def notifiedSignals : List Sig := [Sig.sigint, Sig.sigterm]

/-- The `interrupt` channel receives only the notified signals, and its
receive at main.go line 108 is the only thing the final wait blocks on:
a signal unblocks it exactly when it was registered. -/
def unblocksFinalWait (s : Sig) : Bool := notifiedSignals.contains s

/-- Go `String()` rendering of the modelled signals. -/
def sigName : Sig → String
  | Sig.sigint => "interrupt"
  | Sig.sigterm => "terminated"
  | Sig.other n => "signal " ++ toString n

/-- Actions `main` performs after the signal receive unblocks (main.go
lines 109-111): two log writes, then `main` returns. -/
def mainAfterSignal (s : Sig) : List Action :=
  [ Action.logMsg ("received signal: " ++ sigName s)
  , Action.logMsg "exit" ]

/-- Callback invocations of the subscribe kind occurring in an action
list, with the arguments passed. -/
def subscribeCbCalls (l : List Action) : List (SubscribeReply × Option String) :=
  l.filterMap fun a =>
    match a with
    | Action.callSubscribeCb rep err => some (rep, err)
    | _ => none

/-- Callback invocations of the publish kind occurring in an action
list, with the arguments passed. -/
def publishCbCalls (l : List Action) : List (PublishReply × Option String) :=
  l.filterMap fun a =>
    match a with
    | Action.callPublishCb rep err => some (rep, err)
    | _ => none

/-- Callback invocations of the RPC kind occurring in an action list. -/
def rpcCbCalls (l : List Action) : List (String × Option String) :=
  l.filterMap fun a =>
    match a with
    | Action.callRPCCb d err => some (d, err)
    | _ => none

/-- Every action of an action list is a log write. -/
def onlyLogs (l : List Action) : Bool :=
  l.all fun a =>
    match a with
    | Action.logMsg _ => true
    | _ => false

/-! ### Theorems for the claims -/

/-- C4: for every inbound request to the upgrade endpoint, whatever its
headers or other content, the auth middleware hands the wrapped handler
a request whose context carries the empty-string (anonymous) user
identity — and it makes exactly that one handler call. -/
theorem claim4_auth_always_anonymous (W : Type) (w : W) (r : Request) :
    (authBody W w r).map (fun c => c.request.context.credentials)
      = [some { userID := "" }] := rfl

/-- C10: the auth middleware invokes the wrapped handler exactly once,
passing the response writer unchanged and the request unchanged except
for the credentials installed in its context; method, URL, headers and
body are preserved. -/
theorem claim10_auth_frame (W : Type) (w : W) (r : Request) :
    authBody W w r
        = [{ writer := w
             request := { r with context := SetCredentials r.context { userID := "" } } }] ∧
      (authBody W w r).map (fun c => c.writer) = [w] ∧
      (authBody W w r).map (fun c => c.request.method) = [r.method] ∧
      (authBody W w r).map (fun c => c.request.url) = [r.url] ∧
      (authBody W w r).map (fun c => c.request.headers) = [r.headers] ∧
      (authBody W w r).map (fun c => c.request.body) = [r.body] :=
  ⟨rfl, rfl, rfl, rfl, rfl, rfl⟩

/-- C5: for every connected client and every subscribe or publish
event, the on-subscribe and on-publish hooks invoke their callback
exactly once, with the zero-value reply and a nil error: every
subscribe and publish is accepted, with no check on any input. -/
theorem claim5_hooks_always_accept (cid info : String) (e : SubscribeEvent) (p : PublishEvent) :
    subscribeCbCalls (onSubscribeActions cid info e) = [(SubscribeReply.mk, none)] ∧
      publishCbCalls (onPublishActions cid info p) = [(PublishReply.mk, none)] :=
  ⟨rfl, rfl⟩

/-- C6: for every RPC event, `handleRPC` performs exactly one action, a
log write naming the method and payload; it computes no response and
performs no other effect. -/
theorem claim6_rpc_stub (e : RPCEvent) :
    handleRPCActions e = [Action.logMsg ("client RPC: " ++ e.method ++ " " ++ e.data)] ∧
      onlyLogs (handleRPCActions e) = true :=
  ⟨rfl, rfl⟩

/-- C9: the RPC hook never invokes the RPC callback it is given, so no
reply, successful or failed, is ever produced for any RPC. -/
theorem claim9_rpc_never_replies (e : RPCEvent) :
    rpcCbCalls (handleRPCActions e) = [] ∧
      (handleRPCActions e).countP isCallRPCCb = 0 :=
  ⟨rfl, rfl⟩

/-- C7: the server listens on TCP port 8000, all four clients dial the
single endpoint `ws://localhost:8000/connection/websocket`, and all
four subscribe to the same fixed channel name. -/
theorem claim7_endpoints :
    listenAddr = ":8000" ∧
      listenAddr = ":" ++ toString 8000 ∧
      wsURL = "ws://localhost:8000" ++ websocketRoute ∧
      mainClients = List.replicate 4 newClient ∧
      mainClients.length = 4 ∧
      newClient.url = wsURL ∧
      newClient.subChannel = subscriptionChannel ∧
      subscriptionChannel = "com.jtbonhomme.server" := by
  refine ⟨rfl, by decide, by decide, rfl, rfl, rfl, rfl, rfl⟩

/-- C8: SIGINT and SIGTERM each unblock the final wait, no other signal
or event does, and after the receive the program only writes two log
lines (the signal name and exit) before returning. -/
theorem claim8_signal_exit :
    unblocksFinalWait Sig.sigint = true ∧
      unblocksFinalWait Sig.sigterm = true ∧
      (∀ s : Sig, unblocksFinalWait s = true ↔ (s = Sig.sigint ∨ s = Sig.sigterm)) ∧
      (∀ s : Sig,
        mainAfterSignal s
          = [Action.logMsg ("received signal: " ++ sigName s), Action.logMsg "exit"] ∧
        onlyLogs (mainAfterSignal s) = true) := by
  refine ⟨rfl, rfl, ?_, fun s => ⟨rfl, rfl⟩⟩
  intro s
  cases s <;> simp [unblocksFinalWait, notifiedSignals]

/-- C1: the WaitGroup is incremented exactly once before each of the
four connect attempts (so `i + 1` adds precede the connect of client
`i`), the startup loop itself never decrements, the only decrement in
the program is the single `wg.Done()` at the end of the server-side
`OnConnect` callback (no other hook body decrements), and the barrier
unblocks exactly when the number of completed `OnConnect` callbacks is
four, i.e. when all four clients have connected. -/
theorem claim1_startup_barrier :
    (∀ i : Fin 4, addsBeforeConnect i.1 = i.1 + 1) ∧
      totalAdds = 4 ∧
      clientStartupLoop.countP isWgDone = 0 ∧
      (∀ cid info tn tp, (serverOnConnectActions cid info tn tp).countP isWgDone = 1) ∧
      (∀ cid info e, (onSubscribeActions cid info e).countP isWgDone = 0) ∧
      (∀ cid info p, (onPublishActions cid info p).countP isWgDone = 0) ∧
      (∀ cid info, (onDisconnectActions cid info).countP isWgDone = 0) ∧
      (∀ e, (handleRPCActions e).countP isWgDone = 0) ∧
      (∀ d : Nat, waitUnblocked d ↔ d = 4) := by
  refine ⟨by decide, by decide, by decide, ?_, ?_, ?_, ?_, ?_, ?_⟩
  · intro cid info tn tp
    simp [serverOnConnectActions, List.countP_cons, List.countP_nil, isWgDone]
  · intro cid info e
    simp [onSubscribeActions, List.countP_cons, List.countP_nil, isWgDone]
  · intro cid info p
    simp [onPublishActions, List.countP_cons, List.countP_nil, isWgDone]
  · intro cid info
    simp [onDisconnectActions, List.countP_cons, List.countP_nil, isWgDone]
  · intro e
    simp [handleRPCActions, List.countP_cons, List.countP_nil, isWgDone]
  · intro d
    have ht : totalAdds = 4 := by decide
    unfold waitUnblocked wgCounterAfter
    rw [ht]
    omega

/-- C2: the claim says subscription creation or activation failure is
only logged and never fatal, but the code only gets the activation half
right.  When `NewSubscription` fails, the handler logs the error and
then calls `OnJoin` on the nil handle, crashing the client process; a
failed `Subscribe()` is indeed merely logged, leaving the client
running unsubscribed. -/
theorem claim2_subscription_failure_crashes :
    onConnectedOutcome (some "centrifuge: duplicate subscription") none
        = ClientOutcome.crashed nilDerefMsg ∧
      (∀ e : String, onConnectedOutcome none (some e) = ClientOutcome.running false) ∧
      onConnectedOutcome none none = ClientOutcome.running true :=
  ⟨rfl, fun _ => rfl, rfl⟩

/-- Step equation for the client connect loop below its bound. -/
theorem connectClients_step (env : StartupEnv) (i : Nat) (h : i < 4) :
    connectClients env i =
      match env.connectErr ⟨i, h⟩ with
      | some e => StartupOutcome.panicked ("connect client " ++ toString i ++ " error: " ++ e)
      | none => connectClients env (i + 1) := by
  rw [connectClients]
  rw [dif_pos h]

/-- The client connect loop stops once the bound is reached. -/
theorem connectClients_ge (env : StartupEnv) :
    connectClients env 4 = StartupOutcome.proceeding := by
  rw [connectClients]
  rfl

/-- The connect loop falls through exactly when every client connect
succeeded. -/
theorem connectClients_zero_iff (env : StartupEnv) :
    connectClients env 0 = StartupOutcome.proceeding ↔
      ∀ j : Fin 4, env.connectErr j = none := by
  rcases h0 : env.connectErr (0 : Fin 4) with _ | e0 <;>
    rcases h1 : env.connectErr (1 : Fin 4) with _ | e1 <;>
      rcases h2 : env.connectErr (2 : Fin 4) with _ | e2 <;>
        rcases h3 : env.connectErr (3 : Fin 4) with _ | e3 <;>
          simp [connectClients_step env 0 (by norm_num), connectClients_step env 1 (by norm_num),
            connectClients_step env 2 (by norm_num), connectClients_step env 3 (by norm_num),
            connectClients_ge, h0, h1, h2, h3] <;>
          first
            | (intro j; fin_cases j <;> simp_all; done)
            | (refine ⟨0, ?_⟩; simp_all; done)
            | (refine ⟨1, ?_⟩; simp_all; done)
            | (refine ⟨2, ?_⟩; simp_all; done)
            | (refine ⟨3, ?_⟩; simp_all; done)

/-- C3: the three named conditions (node construction failure, node run
or HTTP listen failure, a failed initial connect) are exactly the abort
conditions of the explicit control flow inside `main`; but they are not
the only ways the process aborts, because a client-side subscription
creation failure crashes the process through the nil-handle dereference
in `OnConnected`, instead of being logged and survived. -/
theorem claim3_fatal_tiers :
    (∀ env : StartupEnv,
      mainStartup env = StartupOutcome.proceeding ↔
        (env.newNodeErr = none ∧ env.runErr = none ∧ env.listenErr = none ∧
          ∀ i : Fin 4, env.connectErr i = none)) ∧
      (∀ e : String, onConnectedOutcome (some e) none = ClientOutcome.crashed nilDerefMsg) := by
  refine ⟨?_, fun e => rfl⟩
  intro env
  rcases hn : env.newNodeErr with _ | en <;>
    rcases hr : env.runErr with _ | er <;>
      rcases hl : env.listenErr with _ | el <;>
        simp [mainStartup, hn, hr, hl, connectClients_zero_iff]

end CentrifugeFsm
